import Mathlib

/-!
Verification of the ENEE457_Group7 malware-classifier repository:
a shallow embedding of the inference pipeline (`code/backend/main.py`,
`standalone_app/app.py`) and of the batch-evaluation harness
(`batch_test.py`), with theorems checking the design-spec claims.

Conventions of the embedding:
- Python floats are modelled by `PyFloat`: either a finite rational or one
  of the IEEE special values NaN, +inf, -inf. Probabilities, thresholds and
  confidences (which are ordinary finite floats in the code paths modelled)
  are rationals.
- File bytes are a `List Nat`.
- A call into a library object (the EMBER extractor, the fitted scaler or
  PCA, the model) may either return a value or raise, so it is modelled as
  a function into `Except String _`; the pipeline's `try ... except`
  blocks become `match` on that `Except`.
- Python truthiness tests on strings/None (`if r["error"]`) are modelled
  by `pyTruthy`: `None` and the empty string are falsy.
-/

/-- A Python float value: finite, or one of the non-finite IEEE values. -/
inductive PyFloat where
  | finite (q : ℚ)
  | nan
  | posInf
  | negInf
deriving DecidableEq, Repr

/-- `True` exactly on finite values (mirrors `np.isfinite`). -/
def PyFloat.isFinite : PyFloat → Bool
  | .finite _ => true
  | _ => false

/-- A feature vector as produced by the EMBER-style extractors. -/
abbrev FeatureVec := List PyFloat

/-- One entry of `np.nan_to_num(x, nan=0.0, posinf=1e10, neginf=-1e10)`
(standalone_app/app.py line 131). -/
def nanToNumEntry : PyFloat → PyFloat
  | .nan => .finite 0
  | .posInf => .finite 10000000000
  | .negInf => .finite (-10000000000)
  | .finite q => .finite q

/-- `np.nan_to_num(features, nan=0.0, posinf=1e10, neginf=-1e10)` applied
entrywise to a feature vector. -/
def nanToNum (v : FeatureVec) : FeatureVec :=
  v.map nanToNumEntry

/-- What the backend pipeline hands to `scaler.transform` after extraction:
`main.py` line 131 only reshapes to `(1, -1)` (a no-op on the entries) and
applies no sanitisation, so the scaler receives the raw extracted vector. -/
def backendTransformInput (features : FeatureVec) : FeatureVec :=
  features

/-- What the standalone pipeline hands to `scaler.transform`: app.py
line 131 applies `np.nan_to_num` (after the entry-preserving reshape)
before the scaler is called on line 132. -/
def standaloneTransformInput (features : FeatureVec) : FeatureVec :=
  nanToNum features

/-- A fitted transform (`scaler.transform` / `pca.transform`): a call that
either returns a vector or raises. -/
abbrev Transform := FeatureVec → Except String FeatureVec

/-- The loaded classifier object. `hasPredictProba` is
`hasattr(model, "predict_proba")`; the two scoring calls may raise and
otherwise yield the scalar the code extracts (`float(probs[0][1])`,
resp. `float(prediction[0])`). -/
structure Model where
  hasPredictProba : Bool
  predictProba : FeatureVec → Except String ℚ
  predict : FeatureVec → Except String ℚ

/-- `model.predict_proba` / `model.predict` dispatch of both pipelines
(main.py lines 141-147, app.py lines 134-139). -/
def scoreModel (m : Model) (v : FeatureVec) : Except String ℚ :=
  if m.hasPredictProba then m.predictProba v else m.predict v

/-- Calling `.transform` on a global that may be `None`: on `None` the
attribute access raises (caught by the surrounding `except`). -/
def applyTransform (t : Option Transform) (v : FeatureVec) :
    Except String FeatureVec :=
  match t with
  | none => Except.error "AttributeError: NoneType object has no attribute transform"
  | some f => f v

/-- The decision policy `label = "malicious" if prob > threshold else
"benign"` (main.py line 151, app.py line 141). -/
def decideLabel (prob threshold : ℚ) : String :=
  if prob > threshold then "malicious" else "benign"

/-- `THRESHOLD = 0.35` (main.py line 150). -/
def THRESHOLD : ℚ := 35 / 100

/-- The module-level globals of `code/backend/main.py` produced by
`load_model()`: model, scaler and PCA, each possibly `None`. -/
structure BackendState where
  model : Option Model
  scaler : Option Transform
  pca : Option Transform

/-- The body of the backend `try:` block (main.py lines 125-152 up to the
scoring call): extract, reshape, scale, PCA, score; any raise short-circuits. -/
def backendPipelineBody (st : BackendState) (m : Model)
    (extract : List Nat → Except String FeatureVec) (fileBytes : List Nat) :
    Except String ℚ := do
  let features ← extract fileBytes
  let featuresScaled ← applyTransform st.scaler (backendTransformInput features)
  let featuresPca ← applyTransform st.pca featuresScaled
  scoreModel m featuresPca

/-- `predict_file` of `code/backend/main.py` (lines 115-158). -/
def predictFileBackend (st : BackendState)
    (extract : List Nat → Except String FeatureVec) (fileBytes : List Nat) :
    String × ℚ :=
  match st.model with
  | none => ("Model not loaded", 0)
  | some m =>
    match backendPipelineBody st m extract fileBytes with
    | .error _ => ("Processing Error", 0)
    | .ok maliciousProb => (decideLabel maliciousProb THRESHOLD, maliciousProb)

/-- The module-level globals of `standalone_app/app.py`: model and scaler
from `load_model()`, plus the `THREMBER_AVAILABLE` import flag. -/
structure StandaloneState where
  model : Option Model
  scaler : Option Transform
  thremberAvailable : Bool

/-- The body of the standalone `try:` block (app.py lines 128-139 up to the
scoring call): extract, reshape, `nan_to_num`, scale, score. -/
def standalonePipelineBody (st : StandaloneState) (m : Model)
    (extract : List Nat → Except String FeatureVec) (fileBytes : List Nat) :
    Except String ℚ := do
  let features ← extract fileBytes
  let featuresScaled ← applyTransform st.scaler (standaloneTransformInput features)
  scoreModel m featuresScaled

/-- `predict_file` of `standalone_app/app.py` (lines 120-148). -/
def predictFileStandalone (st : StandaloneState)
    (extract : List Nat → Except String FeatureVec) (fileBytes : List Nat) :
    String × ℚ :=
  match st.model with
  | none => ("Model not loaded", 0)
  | some m =>
    if !st.thremberAvailable then ("Feature extractor not available", 0)
    else
      match standalonePipelineBody st m extract fileBytes with
      | .error _ => ("Processing Error", 0)
      | .ok maliciousProb => (decideLabel maliciousProb (1 / 2), maliciousProb)

/-! ### The HTTP endpoint `POST /predict`

Both apps define the same endpoint (main.py lines 161-176, app.py lines
159-174): inside a `try:` block, the uploaded bytes are read; if they are
falsy (empty) an `HTTPException(400, "Empty file")` is raised; otherwise
`predict_file` is called and a 200 JSON response is returned. The trailing
`except Exception as e:` re-raises any exception as
`HTTPException(500, f"Internal error: \x7be\x7d")`. Because
`fastapi.HTTPException` subclasses `Exception`, that broad handler also
catches the 400 raised for the empty file. -/

/-- A Python exception visible at the endpoint level. -/
inductive PyExn where
  | httpException (status : Nat) (detail : String)
  | other (msg : String)

/-- `str(e)` on an exception: starlette formats an `HTTPException` as
`"\x7bstatus\x7d: \x7bdetail\x7d"`. -/
def pyExnStr : PyExn → String
  | .httpException status detail => toString status ++ ": " ++ detail
  | .other msg => msg

/-- An HTTP response as seen by the client: a 200 with the JSON label and
confidence, or an error status with a detail string. -/
inductive Response where
  | ok (label : String) (confidence : ℚ)
  | httpError (status : Nat) (detail : String)
deriving DecidableEq

/-- The `try:` body of the endpoint, for either app, abstracted over its
`predict_file`: raise 400 on an empty upload, else answer 200 with the
pipeline's pair. -/
def predictEndpointBody (predictFn : List Nat → String × ℚ)
    (fileBytes : List Nat) : Except PyExn (String × ℚ) :=
  if fileBytes.isEmpty then .error (.httpException 400 "Empty file")
  else .ok (predictFn fileBytes)

/-- The `predict` endpoint: the `try:` body, with the broad
`except Exception` translating every exception — the `HTTPException(400)`
included, since it subclasses `Exception` — into an
`HTTPException(500, "Internal error: ...")`, which the framework renders
as a 500 response. -/
def predictEndpoint (predictFn : List Nat → String × ℚ)
    (fileBytes : List Nat) : Response :=
  match predictEndpointBody predictFn fileBytes with
  | .ok (label, confidence) => Response.ok label confidence
  | .error e => Response.httpError 500 ("Internal error: " ++ pyExnStr e)

/-! ### Artifact loading -/

/-- The filesystem and unpickling environment seen by the backend
`load_model()`: whether each artifact file exists, and what each
`joblib.load` call does (returns the fitted object or raises). -/
structure BackendArtifacts where
  modelExists : Bool
  scalerExists : Bool
  pcaExists : Bool
  loadModelFile : Except String Model
  loadScalerFile : Except String Transform
  loadPcaFile : Except String Transform

/-- `load_model()` of `code/backend/main.py` (lines 85-111): if any of the
three artifact paths is missing, return `(None, None, None)`; otherwise
unpickle all three inside a `try:`, returning `(None, None, None)` if any
load raises. -/
def loadModelBackend (fs : BackendArtifacts) :
    Option Model × Option Transform × Option Transform :=
  if fs.modelExists && fs.scalerExists && fs.pcaExists then
    match (do
        let model ← fs.loadModelFile
        let scaler ← fs.loadScalerFile
        let pca ← fs.loadPcaFile
        pure (model, scaler, pca) : Except String (Model × Transform × Transform)) with
    | .ok (model, scaler, pca) => (some model, some scaler, some pca)
    | .error _ => (none, none, none)
  else (none, none, none)

/-- The backend globals `model, scaler, pca = load_model()` (main.py
line 113). -/
def mkBackendState (fs : BackendArtifacts) : BackendState :=
  let (model, scaler, pca) := loadModelBackend fs
  ⟨model, scaler, pca⟩

/-- The environment seen by the standalone `load_model()` (app.py lines
57-106). The search over candidate directories and file names (lines
60-87) is abstracted to its outcome: whether a model path and a scaler
path were found; the two loads inside the `try:` may raise. -/
structure StandaloneArtifacts where
  modelPathFound : Bool
  scalerPathFound : Bool
  loadModelFile : Except String Model
  loadScalerFile : Except String Transform

/-- `load_model()` of `standalone_app/app.py`: `(None, None)` when either
path is missing (lines 89-95) or when loading raises (lines 104-106), and
`(model, scaler)` when both loads succeed. -/
def loadModelStandalone (fs : StandaloneArtifacts) :
    Option Model × Option Transform :=
  if !fs.modelPathFound then (none, none)
  else if !fs.scalerPathFound then (none, none)
  else
    match (do
        let model ← fs.loadModelFile
        let scaler ← fs.loadScalerFile
        pure (model, scaler) : Except String (Model × Transform)) with
    | .ok (model, scaler) => (some model, some scaler)
    | .error _ => (none, none)

/-- The standalone globals `model, scaler = load_model()` (app.py line
108) together with the `THREMBER_AVAILABLE` flag. -/
def mkStandaloneState (fs : StandaloneArtifacts) (thremberAvailable : Bool) :
    StandaloneState :=
  let (model, scaler) := loadModelStandalone fs
  ⟨model, scaler, thremberAvailable⟩

/-! ### The batch-evaluation harness (`batch_test.py`) -/

/-- One result dict built by `test_file` (batch_test.py lines 17-54). -/
structure EvalRecord where
  file : String
  expected : String
  predicted : Option String
  confidence : ℚ
  correct : Bool
  error : Option String
deriving DecidableEq, Repr

/-- Python truthiness of an optional string (`if r["error"]`,
`if r["predicted"]`): `None` and `""` are falsy. -/
def pyTruthy : Option String → Bool
  | none => false
  | some s => s ≠ ""

/-- What one `requests.post` submission did: a response with a status code
and (for 200) the decoded JSON fields, or an exception (I/O, connection,
timeout) whose `str(e)` is `msg`. -/
inductive SubmissionOutcome where
  | response (status : Nat) (label : String) (confidence : ℚ)
  | exn (msg : String)
deriving DecidableEq

/-- One unit of work given to the pool: the file name, the expected label
derived from the sample directory, and the outcome of its own request. -/
structure Submission where
  name : String
  expected : String
  outcome : SubmissionOutcome
deriving DecidableEq

/-- `test_file` (batch_test.py lines 17-54): a 200 response yields a
record with the decoded label and confidence, `correct` comparing label to
expected, and `error=None`; a non-200 status yields
`error="HTTP \x7bstatus\x7d"`; any exception yields `error=str(e)`. Both
failure shapes carry `predicted=None`, `confidence=0`, `correct=False`. -/
def test_file (name expected : String) (outcome : SubmissionOutcome) :
    EvalRecord :=
  match outcome with
  | .response status label confidence =>
    if status = 200 then
      ⟨name, expected, some label, confidence, label = expected, none⟩
    else
      ⟨name, expected, none, 0, false, some ("HTTP " ++ toString status)⟩
  | .exn msg => ⟨name, expected, none, 0, false, some msg⟩

/-- The collected `results` list of `main()` (batch_test.py lines 57-89):
one record per submitted file, each produced by `test_file` from that
submission's own outcome alone. The `ThreadPoolExecutor` only changes the
completion order in which records are appended, which none of the metrics
depend on; we collect in submission order. -/
def runHarness (subs : List Submission) : List EvalRecord :=
  subs.map fun s => test_file s.name s.expected s.outcome

/-- `errors = sum(1 for r in results if r["error"])` (line 98). -/
def errorsCount (rs : List EvalRecord) : Nat :=
  (rs.filter fun r => pyTruthy r.error).length

/-- `malware_results` (line 100): non-error records expected malicious. -/
def malwareResults (rs : List EvalRecord) : List EvalRecord :=
  rs.filter fun r => r.expected = "malicious" ∧ ¬pyTruthy r.error

/-- `benign_results` (line 101): non-error records expected benign. -/
def benignResults (rs : List EvalRecord) : List EvalRecord :=
  rs.filter fun r => r.expected = "benign" ∧ ¬pyTruthy r.error

/-- `true_positives` (line 103). -/
def truePositives (rs : List EvalRecord) : Nat :=
  ((malwareResults rs).filter fun r => r.predicted = some "malicious").length

/-- `false_negatives` (line 104). -/
def falseNegatives (rs : List EvalRecord) : Nat :=
  ((malwareResults rs).filter fun r => r.predicted = some "benign").length

/-- `true_negatives` (line 105). -/
def trueNegatives (rs : List EvalRecord) : Nat :=
  ((benignResults rs).filter fun r => r.predicted = some "benign").length

/-- `false_positives` (line 106). -/
def falsePositives (rs : List EvalRecord) : Nat :=
  ((benignResults rs).filter fun r => r.predicted = some "malicious").length

/-- `mal_confs` (line 137): confidences of malware-expected records whose
`predicted` field is truthy. -/
def malConfs (rs : List EvalRecord) : List ℚ :=
  ((malwareResults rs).filter fun r => pyTruthy r.predicted).map (·.confidence)

/-- `ben_confs` (line 138). -/
def benConfs (rs : List EvalRecord) : List ℚ :=
  ((benignResults rs).filter fun r => pyTruthy r.predicted).map (·.confidence)

/-- The derived metrics printed by `main()` (batch_test.py lines 96-143).
An `Option ℚ` field is `none` exactly when the script prints nothing (or
"N/A") for that metric because its guard failed. -/
structure Metrics where
  total : Nat
  errors : Nat
  correctCount : Nat
  tp : Nat
  fn : Nat
  tn : Nat
  fp : Nat
  accuracy : Option ℚ
  recallVal : Option ℚ
  specificity : Option ℚ
  precisionVal : Option ℚ
  f1 : Option ℚ
  avgMalConf : Option ℚ
  avgBenConf : Option ℚ

/-- The metrics reduction of `main()` (batch_test.py lines 96-143),
with each guard exactly as in the script; note the F1 inner guard
`if (precision + recallVal) > 0 else 0` on line 133, which reports `0`
rather than skipping the metric. -/
def computeMetrics (rs : List EvalRecord) : Metrics :=
  let total := rs.length
  let errors := errorsCount rs
  let correctCount := (rs.filter fun r => r.correct).length
  let tp := truePositives rs
  let fn := falseNegatives rs
  let tn := trueNegatives rs
  let fp := falsePositives rs
  let nMal := (malwareResults rs).length
  let nBen := (benignResults rs).length
  let accuracy : Option ℚ :=
    if total - errors > 0 then some ((correctCount : ℚ) / ((total - errors : Nat) : ℚ)) else none
  let recallVal : Option ℚ :=
    if nMal > 0 then some ((tp : ℚ) / (nMal : ℚ)) else none
  let specificity : Option ℚ :=
    if nBen > 0 then some ((tn : ℚ) / (nBen : ℚ)) else none
  let precisionVal : Option ℚ :=
    if tp + fp > 0 then some ((tp : ℚ) / ((tp + fp : Nat) : ℚ)) else none
  let f1 : Option ℚ :=
    if tp + fp > 0 then
      if nMal > 0 then
        let p : ℚ := (tp : ℚ) / ((tp + fp : Nat) : ℚ)
        let r : ℚ := (tp : ℚ) / (nMal : ℚ)
        some (if p + r > 0 then 2 * (p * r) / (p + r) else 0)
      else none
    else none
  let avgMalConf : Option ℚ :=
    if malConfs rs ≠ [] then
      some ((malConfs rs).sum / ((malConfs rs).length : ℚ))
    else none
  let avgBenConf : Option ℚ :=
    if benConfs rs ≠ [] then
      some ((benConfs rs).sum / ((benConfs rs).length : ℚ))
    else none
  ⟨total, errors, correctCount, tp, fn, tn, fp,
    accuracy, recallVal, specificity, precisionVal, f1, avgMalConf, avgBenConf⟩

/-! ## Claim theorems -/

/-- C1: for every byte input (including empty, truncated and non-PE
content), whatever the stage calls (extractor, scaler, PCA, model) return
or raise, both `predict_file` variants reach a terminal (label, confidence)
pair, and every stage failure is translated into a well-defined degraded
pair rather than propagated. -/
theorem pipeline_always_reaches_terminal_decision
    (st : BackendState) (extract : List Nat → Except String FeatureVec)
    (b : List Nat)
    (st2 : StandaloneState) (extract2 : List Nat → Except String FeatureVec)
    (b2 : List Nat) :
    (predictFileBackend st extract b = ("Model not loaded", 0) ∨
      predictFileBackend st extract b = ("Processing Error", 0) ∨
      ∃ p : ℚ, predictFileBackend st extract b = (decideLabel p THRESHOLD, p)) ∧
    (predictFileStandalone st2 extract2 b2 = ("Model not loaded", 0) ∨
      predictFileStandalone st2 extract2 b2 = ("Feature extractor not available", 0) ∨
      predictFileStandalone st2 extract2 b2 = ("Processing Error", 0) ∨
      ∃ p : ℚ, predictFileStandalone st2 extract2 b2 = (decideLabel p (1 / 2), p)) := by
  constructor
  · cases hm : st.model with
    | none => left; simp [predictFileBackend, hm]
    | some m =>
      cases h : backendPipelineBody st m extract b with
      | error e => right; left; simp [predictFileBackend, hm, h]
      | ok p => right; right; exact ⟨p, by simp [predictFileBackend, hm, h]⟩
  · cases hm : st2.model with
    | none => left; simp [predictFileStandalone, hm]
    | some m =>
      cases ht : st2.thremberAvailable with
      | false => right; left; simp [predictFileStandalone, hm, ht]
      | true =>
        cases h : standalonePipelineBody st2 m extract2 b2 with
        | error e => right; right; left; simp [predictFileStandalone, hm, ht, h]
        | ok p =>
          right; right; right
          exact ⟨p, by simp [predictFileStandalone, hm, ht, h]⟩

/-- C2: the decision is `"malicious"` exactly when the scored probability
exceeds the threshold, and `"benign"` otherwise; in particular probability
0.40 against the backend THRESHOLD 0.35 yields `"malicious"`, while the
same probability against the standalone threshold 0.5 yields `"benign"`. -/
theorem decision_policy_threshold (p t : ℚ) :
    (decideLabel p t = "malicious" ↔ p > t) ∧
    (decideLabel p t = "benign" ↔ ¬p > t) ∧
    THRESHOLD = 35 / 100 ∧
    decideLabel (40 / 100) THRESHOLD = "malicious" ∧
    decideLabel (40 / 100) (1 / 2) = "benign" := by
  refine ⟨?_, ?_, rfl, ?_, ?_⟩
  · by_cases h : p > t <;> simp [decideLabel, h]
  · by_cases h : p > t <;> simp [decideLabel, h]
  · norm_num [decideLabel, THRESHOLD]
  · norm_num [decideLabel]

/-- C3 (code bug): an empty uploaded file does not produce the intended
HTTP 400. The endpoint raises `HTTPException(400, "Empty file")`, but the
enclosing broad `except Exception` — which `fastapi.HTTPException`
subclasses — catches it and re-raises it as a 500, so the client receives
HTTP 500 with detail `"Internal error: 400: Empty file"`, whichever
`predict_file` the app uses. -/
theorem empty_file_yields_http500 (predictFn : List Nat → String × ℚ) :
    predictEndpoint predictFn [] =
      Response.httpError 500 "Internal error: 400: Empty file" := by
  rfl

/-- A scaler stand-in that raises exactly when its input contains a
non-finite entry, mirroring how sklearn's fitted scaler rejects NaN input;
used to observe what the pipelines feed into the transform chain. -/
def scalerProbe : Transform := fun v =>
  if v.all PyFloat.isFinite then .ok v else .error "ValueError: input contains NaN"

/-- C5 counterexample: the claim fails for the backend pipeline, which has
no sanitize step. The raw extracted vector — NaN entries included — is
passed directly to `scaler.transform` (`backendTransformInput` is the
identity), so a scaler that rejects non-finite input fails there, while
the standalone pipeline sanitizes the same vector first and proceeds. -/
theorem backend_transform_receives_nonfinite_cex :
    backendTransformInput [PyFloat.nan] = [PyFloat.nan] ∧
    PyFloat.isFinite PyFloat.nan = false ∧
    predictFileBackend
      ⟨some ⟨true, fun _ => .ok 1, fun _ => .ok 1⟩, some scalerProbe,
        some (fun v => .ok v)⟩
      (fun _ => .ok [PyFloat.nan]) [0] = ("Processing Error", 0) ∧
    predictFileStandalone
      ⟨some ⟨true, fun _ => .ok 1, fun _ => .ok 1⟩, some scalerProbe, true⟩
      (fun _ => .ok [PyFloat.nan]) [0] = ("malicious", 1) := by
  refine ⟨rfl, rfl, ?_, ?_⟩
  · norm_num [predictFileBackend, backendPipelineBody, applyTransform, scalerProbe,
      backendTransformInput, scoreModel, PyFloat.isFinite, Except.bind, bind,
      List.all]
  · norm_num [predictFileStandalone, standalonePipelineBody, applyTransform,
      scalerProbe, standaloneTransformInput, nanToNum, nanToNumEntry, scoreModel,
      PyFloat.isFinite, decideLabel, Except.bind, bind, List.all]

/-- C5 as amended: only the standalone pipeline sanitizes. Its
`np.nan_to_num` call maps NaN to 0.0, +inf to the finite ceiling 1e10 and
-inf to the finite floor -1e10, so the standalone scaler only ever
receives finite entries; the backend pipeline has no sanitize step and
hands the raw extracted vector to its scaler unchanged. -/
theorem sanitize_standalone_only (v : FeatureVec) :
    (∀ x ∈ standaloneTransformInput v, x.isFinite = true) ∧
    standaloneTransformInput v = nanToNum v ∧
    nanToNumEntry PyFloat.nan = PyFloat.finite 0 ∧
    nanToNumEntry PyFloat.posInf = PyFloat.finite 10000000000 ∧
    nanToNumEntry PyFloat.negInf = PyFloat.finite (-10000000000) ∧
    (∀ q : ℚ, nanToNumEntry (PyFloat.finite q) = PyFloat.finite q) ∧
    backendTransformInput v = v := by
  refine ⟨?_, rfl, rfl, rfl, rfl, fun _ => rfl, rfl⟩
  intro x hx
  simp only [standaloneTransformInput, nanToNum, List.mem_map] at hx
  obtain ⟨y, _, rfl⟩ := hx
  cases y <;> rfl

/-- C6 counterexample: with the model unloaded the pipeline returns the
pair `("Model not loaded", 0.0)` — capital M — which is not the literal
`("model not loaded", 0.0)` the claim states. -/
theorem model_not_loaded_label_cex :
    predictFileBackend ⟨none, none, none⟩ (fun _ => .ok []) [0] =
      ("Model not loaded", 0) ∧
    ("Model not loaded" : String) ≠ "model not loaded" := by
  exact ⟨rfl, by decide⟩

/-- C6 as amended: when the model artifacts are absent at load time (or
whenever the model global is `None`), every request — whatever its bytes,
over a session of arbitrary length — returns `("Model not loaded", 0.0)`
immediately, without attempting feature extraction: the result does not
depend on the extractor at all. Holds for both app variants. -/
theorem model_absent_short_circuits
    (scaler pca : Option Transform)
    (extract extract' : List Nat → Except String FeatureVec) (b : List Nat)
    (fs : BackendArtifacts)
    (scaler2 : Option Transform) (thremberFlag : Bool)
    (extract2 : List Nat → Except String FeatureVec) (b2 : List Nat) :
    predictFileBackend ⟨none, scaler, pca⟩ extract b = ("Model not loaded", 0) ∧
    predictFileBackend ⟨none, scaler, pca⟩ extract b =
      predictFileBackend ⟨none, scaler, pca⟩ extract' b ∧
    predictFileBackend (mkBackendState { fs with modelExists := false }) extract b =
      ("Model not loaded", 0) ∧
    predictFileStandalone ⟨none, scaler2, thremberFlag⟩ extract2 b2 =
      ("Model not loaded", 0) := by
  refine ⟨rfl, rfl, ?_, rfl⟩
  simp [mkBackendState, loadModelBackend, predictFileBackend]

/-- C10: each `load_model` returns either all of its artifact handles
non-null (model, scaler, and PCA in the backend variant) or all of them
null, never a partially loaded set; consequently whenever the backend
globals pass the single `model is None` guard, the scaler and PCA globals
are loaded too, so the transform stage never operates on a missing
artifact. -/
theorem load_model_all_or_nothing (fs : BackendArtifacts)
    (fs2 : StandaloneArtifacts) :
    (((loadModelBackend fs).1 = none ∧ (loadModelBackend fs).2.1 = none ∧
        (loadModelBackend fs).2.2 = none) ∨
      ((loadModelBackend fs).1.isSome = true ∧
        (loadModelBackend fs).2.1.isSome = true ∧
        (loadModelBackend fs).2.2.isSome = true)) ∧
    (((loadModelStandalone fs2).1 = none ∧ (loadModelStandalone fs2).2 = none) ∨
      ((loadModelStandalone fs2).1.isSome = true ∧
        (loadModelStandalone fs2).2.isSome = true)) ∧
    ((mkBackendState fs).model = none ∨
      ((mkBackendState fs).scaler.isSome = true ∧
        (mkBackendState fs).pca.isSome = true)) := by
  refine ⟨?_, ?_, ?_⟩
  · unfold loadModelBackend
    by_cases hex : fs.modelExists && fs.scalerExists && fs.pcaExists
    · simp only [hex, if_true]
      cases h1 : fs.loadModelFile with
      | error e => left; simp [Except.bind, bind, h1]
      | ok m =>
        cases h2 : fs.loadScalerFile with
        | error e => left; simp [Except.bind, bind, h1, h2]
        | ok s =>
          cases h3 : fs.loadPcaFile with
          | error e => left; simp [Except.bind, bind, h1, h2, h3]
          | ok p => right; simp [Except.bind, bind, h1, h2, h3, pure, Except.pure]
    · simp [hex]
  · unfold loadModelStandalone
    by_cases h1 : fs2.modelPathFound
    · by_cases h2 : fs2.scalerPathFound
      · simp only [h1, h2, Bool.not_true, Bool.false_eq_true, if_false]
        cases hm : fs2.loadModelFile with
        | error e => left; simp [Except.bind, bind, hm]
        | ok m =>
          cases hs : fs2.loadScalerFile with
          | error e => left; simp [Except.bind, bind, hm, hs]
          | ok s => right; simp [Except.bind, bind, hm, hs, pure, Except.pure]
      · simp [h1, h2]
    · simp [h1]
  · unfold mkBackendState loadModelBackend
    by_cases hex : fs.modelExists && fs.scalerExists && fs.pcaExists
    · simp only [hex, if_true]
      cases h1 : fs.loadModelFile with
      | error e => left; simp [Except.bind, bind, h1]
      | ok m =>
        cases h2 : fs.loadScalerFile with
        | error e => left; simp [Except.bind, bind, h1, h2]
        | ok s =>
          cases h3 : fs.loadPcaFile with
          | error e => left; simp [Except.bind, bind, h1, h2, h3]
          | ok p => right; simp [Except.bind, bind, h1, h2, h3, pure, Except.pure]
    · simp [hex]

/-- Splitting a list's length over two disjoint, jointly exhaustive
Boolean predicates. -/
theorem filter_length_split {α : Type} (p q : α → Bool) (l : List α)
    (h : ∀ x ∈ l, (p x = true ∨ q x = true) ∧ ¬(p x = true ∧ q x = true)) :
    (l.filter p).length + (l.filter q).length = l.length := by
  induction l with
  | nil => simp
  | cons a l ih =>
    have ha := h a (List.mem_cons_self a l)
    have hl : ∀ x ∈ l, (p x = true ∨ q x = true) ∧ ¬(p x = true ∧ q x = true) :=
      fun x hx => h x (List.mem_cons_of_mem a hx)
    have := ih hl
    cases hp : p a <;> cases hq : q a
    · exfalso; rcases ha with ⟨hor, _⟩; simp [hp, hq] at hor
    · simp [List.filter_cons, hp, hq]; omega
    · simp [List.filter_cons, hp, hq]; omega
    · exact absurd ⟨hp, hq⟩ ha.2

/-- C4 counterexample: the confusion-matrix identity fails as stated. A
non-error record with expected label `"malicious"` whose observed label is
the degraded `"Processing Error"` (a real HTTP-200 pipeline output) is
counted in neither `true_positives` nor `false_negatives`, so their sum is
0 while the count of non-error expected-malicious records is 1. -/
theorem confusion_identity_cex :
    truePositives [⟨"m1", "malicious", some "Processing Error", 0, false, none⟩] +
      falseNegatives [⟨"m1", "malicious", some "Processing Error", 0, false, none⟩] = 0 ∧
    (([(⟨"m1", "malicious", some "Processing Error", 0, false, none⟩ : EvalRecord)].filter
        fun r => r.expected = "malicious" ∧ r.error = none)).length = 1 := by
  constructor <;> rfl

/-- C4 as amended: provided every non-error record's observed label is
`"malicious"` or `"benign"` (degraded labels land in no confusion cell),
`true_positives + false_negatives` equals the number of non-error records
expected malicious, and `true_negatives + false_positives` equals the
number of non-error records expected benign. -/
theorem confusion_matrix_identities (rs : List EvalRecord)
    (h : ∀ r ∈ rs, pyTruthy r.error = false →
      r.predicted = some "malicious" ∨ r.predicted = some "benign") :
    truePositives rs + falseNegatives rs = (malwareResults rs).length ∧
    trueNegatives rs + falsePositives rs = (benignResults rs).length := by
  constructor
  · apply filter_length_split
    intro r hr
    have hmem := hr
    simp only [malwareResults, List.mem_filter, decide_eq_true_eq] at hmem
    obtain ⟨hrs, _, herr⟩ := hmem
    have := h r hrs (by simpa using herr)
    constructor
    · rcases this with h1 | h1 <;> simp [h1]
    · rintro ⟨h1, h2⟩
      simp only [decide_eq_true_eq] at h1 h2
      rw [h1] at h2
      exact absurd h2 (by decide)
  · apply filter_length_split
    intro r hr
    have hmem := hr
    simp only [benignResults, List.mem_filter, decide_eq_true_eq] at hmem
    obtain ⟨hrs, _, herr⟩ := hmem
    have := h r hrs (by simpa using herr)
    constructor
    · rcases this with h1 | h1 <;> simp [h1]
    · rintro ⟨h1, h2⟩
      simp only [decide_eq_true_eq] at h1 h2
      rw [h1] at h2
      exact absurd h2 (by decide)

/-- A small concrete record set in which every non-error record carries a
proper class label. -/
def sampleRecords : List EvalRecord :=
  [⟨"m1", "malicious", some "malicious", 9 / 10, true, none⟩,
   ⟨"m2", "malicious", some "benign", 2 / 10, false, none⟩,
   ⟨"b1", "benign", some "benign", 1 / 10, true, none⟩,
   ⟨"e1", "malicious", none, 0, false, some "HTTP 500"⟩]

/-- Witness for C4's amended identity on `sampleRecords`. -/
theorem confusion_matrix_identities_witness :
    (∀ r ∈ sampleRecords, pyTruthy r.error = false →
      r.predicted = some "malicious" ∨ r.predicted = some "benign") ∧
    (truePositives sampleRecords + falseNegatives sampleRecords =
        (malwareResults sampleRecords).length ∧
      trueNegatives sampleRecords + falsePositives sampleRecords =
        (benignResults sampleRecords).length) :=
  ⟨by decide, confusion_matrix_identities sampleRecords (by decide)⟩

/-- An `if c then some x else none` is `none` exactly when the guard
fails. -/
theorem ite_some_eq_none {α : Type} (c : Prop) [Decidable c] (x : α) :
    (if c then some x else none) = none ↔ ¬c := by
  by_cases h : c <;> simp [h]

/-- A nested guard version of `ite_some_eq_none`. -/
theorem nested_ite_some_eq_none {α : Type} (c1 c2 : Prop) [Decidable c1]
    [Decidable c2] (x : α) :
    (if c1 then if c2 then some x else none else none) = none ↔ (¬c1 ∨ ¬c2) := by
  by_cases h1 : c1 <;> by_cases h2 : c2 <;> simp [h1, h2]

/-- A record set with one false positive and one false negative: precision
and recall are both 0, so the F1 denominator `precision + recall` is 0. -/
def f1ZeroRecords : List EvalRecord :=
  [⟨"b1", "benign", some "malicious", 9 / 10, false, none⟩,
   ⟨"m1", "malicious", some "benign", 1 / 10, false, none⟩]

/-- C8 counterexample: the reduction is not uniformly
"not-applicable on zero denominator". On `f1ZeroRecords` precision and
recall are both 0, so F1's denominator `precision + recall` is 0, yet the
script's inner guard `if (precision + recall) > 0 else 0` reports F1 as 0
instead of treating it as not-applicable. -/
theorem f1_reported_zero_cex :
    (computeMetrics f1ZeroRecords).precisionVal = some 0 ∧
    (computeMetrics f1ZeroRecords).recallVal = some 0 ∧
    (computeMetrics f1ZeroRecords).f1 = some 0 := by
  have htp : truePositives f1ZeroRecords = 0 := rfl
  have hfp : falsePositives f1ZeroRecords = 1 := rfl
  have hmal : (malwareResults f1ZeroRecords).length = 1 := rfl
  refine ⟨?_, ?_, ?_⟩ <;>
    · simp only [computeMetrics, htp, hfp, hmal]
      norm_num

/-- C8 as amended: the reduction performs no unguarded division — accuracy,
recall, specificity, precision and the per-class mean confidences are each
computed exactly when their denominator is non-zero and reported
not-applicable otherwise, and over the empty record set every metric is
not-applicable; F1, however, is computed whenever precision and recall
both are (tp + fp > 0 and the expected-malicious class non-empty), and
when its denominator precision + recall is 0 it is reported as 0 rather
than not-applicable. -/
theorem metrics_denominator_guards (rs : List EvalRecord) :
    ((computeMetrics rs).accuracy = none ↔ rs.length - errorsCount rs = 0) ∧
    ((computeMetrics rs).recallVal = none ↔ (malwareResults rs).length = 0) ∧
    ((computeMetrics rs).specificity = none ↔ (benignResults rs).length = 0) ∧
    ((computeMetrics rs).precisionVal = none ↔
      truePositives rs + falsePositives rs = 0) ∧
    ((computeMetrics rs).f1 = none ↔
      (truePositives rs + falsePositives rs = 0 ∨ (malwareResults rs).length = 0)) ∧
    ((computeMetrics rs).avgMalConf = none ↔ malConfs rs = []) ∧
    ((computeMetrics rs).avgBenConf = none ↔ benConfs rs = []) ∧
    (computeMetrics []).accuracy = none ∧
    (computeMetrics []).recallVal = none ∧
    (computeMetrics []).specificity = none ∧
    (computeMetrics []).precisionVal = none ∧
    (computeMetrics []).f1 = none ∧
    (computeMetrics []).avgMalConf = none ∧
    (computeMetrics []).avgBenConf = none := by
  refine ⟨Iff.trans (ite_some_eq_none _ _) (by omega),
    Iff.trans (ite_some_eq_none _ _) (by omega),
    Iff.trans (ite_some_eq_none _ _) (by omega),
    Iff.trans (ite_some_eq_none _ _) (by omega),
    Iff.trans (nested_ite_some_eq_none _ _ _) (by omega),
    Iff.trans (ite_some_eq_none _ _) (by simp),
    Iff.trans (ite_some_eq_none _ _) (by simp),
    rfl, rfl, rfl, rfl, rfl, rfl, rfl⟩

/-- True when the submission's own request failed: an exception or a
non-200 status. -/
def isFailureOutcome : SubmissionOutcome → Bool
  | .exn _ => true
  | .response status _ _ => status ≠ 200

/-- True when an exception outcome carries a non-empty `str(e)` (as real
I/O, connection and timeout exceptions do); response outcomes satisfy it
vacuously. -/
def exnMsgNonempty : SubmissionOutcome → Bool
  | .exn msg => msg ≠ ""
  | .response _ _ _ => true

/-- The record built by `test_file` has a truthy `error` field exactly for
failed submissions, provided exception messages are non-empty. -/
theorem test_file_error_truthy (name expected : String)
    (o : SubmissionOutcome) (h : exnMsgNonempty o = true) :
    pyTruthy (test_file name expected o).error = isFailureOutcome o := by
  cases o with
  | response status label conf =>
    by_cases hs : status = 200
    · simp [test_file, pyTruthy, isFailureOutcome, hs]
    · have hne : ("HTTP " ++ toString status) ≠ "" := by
        intro hcontra
        have hlen := congrArg String.length hcontra
        simp [String.length_append] at hlen
        exact absurd hlen.1 (by decide)
      simp [test_file, pyTruthy, isFailureOutcome, hs, hne]
  | exn msg =>
    have hm : msg ≠ "" := by simpa [exnMsgNonempty] using h
    simp [test_file, pyTruthy, isFailureOutcome, hm]

/-- Splitting off the head of a filtered list's length. -/
theorem length_filter_cons {α : Type} (p : α → Bool) (a : α) (l : List α) :
    (List.filter p (a :: l)).length =
      (if p a then 1 else 0) + (List.filter p l).length := by
  by_cases hp : p a
  · simp [List.filter_cons, hp]
    omega
  · simp [List.filter_cons, hp]

/-- The harness's error counter counts exactly the failed submissions. -/
theorem errorsCount_runHarness (subs : List Submission)
    (h : ∀ s ∈ subs, exnMsgNonempty s.outcome = true) :
    errorsCount (runHarness subs) =
      (subs.filter fun s => isFailureOutcome s.outcome).length := by
  induction subs with
  | nil => rfl
  | cons a l ih =>
    have ha := test_file_error_truthy a.name a.expected a.outcome
      (h a (List.mem_cons_self a l))
    have ihl := ih fun x hx => h x (List.mem_cons_of_mem a hx)
    have ihl' : (List.filter (fun r => pyTruthy r.error) (runHarness l)).length =
        (List.filter (fun s => isFailureOutcome s.outcome) l).length := ihl
    show (List.filter (fun r => pyTruthy r.error)
        (test_file a.name a.expected a.outcome :: runHarness l)).length =
      (List.filter (fun s => isFailureOutcome s.outcome) (a :: l)).length
    simp only [length_filter_cons]
    rw [ha, ihl']

/-- C7: each submission failure (I/O or network exception, timeout, or
non-200 response) yields an EvaluationRecord with `error` set, observed
label null and `correct=false`, built from that submission's own outcome
alone, so one failure cannot abort or change any other submission's
record; the reduction counts the errored records separately, and the
accuracy denominator `total - errors` equals the number of successful
submissions. The hypothesis that exception messages are non-empty matches
`str(e)` of real exceptions; non-200 error strings are non-empty by
construction. -/
theorem harness_isolates_failures (subs : List Submission)
    (h : ∀ s ∈ subs, exnMsgNonempty s.outcome = true) :
    (runHarness subs).length = subs.length ∧
    errorsCount (runHarness subs) =
      (subs.filter fun s => isFailureOutcome s.outcome).length ∧
    (runHarness subs).length - errorsCount (runHarness subs) =
      (subs.filter fun s => !isFailureOutcome s.outcome).length ∧
    ∀ s ∈ subs, isFailureOutcome s.outcome = true →
      (test_file s.name s.expected s.outcome).error.isSome = true ∧
      (test_file s.name s.expected s.outcome).predicted = none ∧
      (test_file s.name s.expected s.outcome).correct = false := by
  have hlen : (runHarness subs).length = subs.length := by simp [runHarness]
  have herr := errorsCount_runHarness subs h
  have hsplit := filter_length_split (fun s => isFailureOutcome s.outcome)
      (fun s => !isFailureOutcome s.outcome) subs
      (fun x _ => by cases hb : isFailureOutcome x.outcome <;> simp [hb])
  refine ⟨hlen, herr, by omega, ?_⟩
  intro s _ hf
  cases ho : s.outcome with
  | response status label conf =>
    rw [ho] at hf
    have hs : ¬status = 200 := by simpa [isFailureOutcome] using hf
    simp [test_file, hs]
  | exn msg => simp [test_file]

/-- Ten submissions, two of which fail with a connection error. -/
def tenSubmissions : List Submission :=
  [⟨"m1", "malicious", .response 200 "malicious" (8 / 10)⟩,
   ⟨"m2", "malicious", .response 200 "benign" (2 / 10)⟩,
   ⟨"m3", "malicious", .response 200 "malicious" (9 / 10)⟩,
   ⟨"m4", "malicious", .exn "ConnectionError: connection refused"⟩,
   ⟨"m5", "malicious", .response 200 "malicious" (7 / 10)⟩,
   ⟨"b1", "benign", .response 200 "benign" (1 / 10)⟩,
   ⟨"b2", "benign", .response 200 "benign" (2 / 10)⟩,
   ⟨"b3", "benign", .exn "ConnectionError: connection refused"⟩,
   ⟨"b4", "benign", .response 200 "malicious" (6 / 10)⟩,
   ⟨"b5", "benign", .response 200 "benign" (3 / 10)⟩]

/-- Witness for C7 on `tenSubmissions`: 10 records, 2 errors, accuracy
denominator 8, and the failed records present with `correct=false`. -/
theorem harness_isolates_failures_witness :
    (∀ s ∈ tenSubmissions, exnMsgNonempty s.outcome = true) ∧
    ((runHarness tenSubmissions).length = tenSubmissions.length ∧
      errorsCount (runHarness tenSubmissions) =
        (tenSubmissions.filter fun s => isFailureOutcome s.outcome).length ∧
      (runHarness tenSubmissions).length -
          errorsCount (runHarness tenSubmissions) =
        (tenSubmissions.filter fun s => !isFailureOutcome s.outcome).length ∧
      ∀ s ∈ tenSubmissions, isFailureOutcome s.outcome = true →
        (test_file s.name s.expected s.outcome).error.isSome = true ∧
        (test_file s.name s.expected s.outcome).predicted = none ∧
        (test_file s.name s.expected s.outcome).correct = false) ∧
    errorsCount (runHarness tenSubmissions) = 2 ∧
    (runHarness tenSubmissions).length -
        errorsCount (runHarness tenSubmissions) = 8 :=
  ⟨by decide, harness_isolates_failures tenSubmissions (by decide),
    by decide, by decide⟩

/-- C9: a backend pipeline failure after a successful upload — and any
request while the model is unloaded — still yields HTTP 200, carrying a
degraded label ("Model not loaded" or "Processing Error") with confidence
0.0; the harness therefore records it with `error=None` and
`correct=false`, the reduction keeps it in the accuracy denominator
(`total - errors` grows by one), and it lands in no confusion-matrix
cell. -/
theorem degraded_results_http200_no_cell
    (st : BackendState) (extract : List Nat → Except String FeatureVec)
    (x : Nat) (bs : List Nat) (name expected : String)
    (hm : st.model = none ∨
      ∃ m msg, st.model = some m ∧ extract (x :: bs) = .error msg)
    (he : expected = "malicious" ∨ expected = "benign") :
    ∃ l, (l = "Model not loaded" ∨ l = "Processing Error") ∧
      predictEndpoint (predictFileBackend st extract) (x :: bs) =
        Response.ok l 0 ∧
      (test_file name expected (.response 200 l 0)).error = none ∧
      (test_file name expected (.response 200 l 0)).correct = false ∧
      ∀ rs : List EvalRecord,
        errorsCount (test_file name expected (.response 200 l 0) :: rs) =
          errorsCount rs ∧
        (test_file name expected (.response 200 l 0) :: rs).length -
            errorsCount (test_file name expected (.response 200 l 0) :: rs) =
          (rs.length - errorsCount rs) + 1 ∧
        truePositives (test_file name expected (.response 200 l 0) :: rs) =
          truePositives rs ∧
        falseNegatives (test_file name expected (.response 200 l 0) :: rs) =
          falseNegatives rs ∧
        trueNegatives (test_file name expected (.response 200 l 0) :: rs) =
          trueNegatives rs ∧
        falsePositives (test_file name expected (.response 200 l 0) :: rs) =
          falsePositives rs := by
  obtain ⟨l, hl, hpred⟩ :
      ∃ l, (l = "Model not loaded" ∨ l = "Processing Error") ∧
        predictFileBackend st extract (x :: bs) = (l, 0) := by
    rcases hm with hnone | ⟨m, msg, hsome, hex⟩
    · exact ⟨"Model not loaded", Or.inl rfl, by simp [predictFileBackend, hnone]⟩
    · refine ⟨"Processing Error", Or.inr rfl, ?_⟩
      have hbody : backendPipelineBody st m extract (x :: bs) = .error msg := by
        simp [backendPipelineBody, hex, Except.bind, bind]
      simp [predictFileBackend, hsome, hbody]
  refine ⟨l, hl, ?_, ?_, ?_, ?_⟩
  · simp [predictEndpoint, predictEndpointBody, hpred]
  · simp [test_file]
  · have hne : ¬(l = expected) := by
      rcases hl with rfl | rfl <;> rcases he with rfl | rfl <;> decide
    simp [test_file, hne]
  · intro rs
    have hle : errorsCount rs ≤ rs.length := List.length_filter_le _ rs
    have hcons : errorsCount (test_file name expected (.response 200 l 0) :: rs) =
        errorsCount rs := by
      simp [errorsCount, test_file, List.filter_cons, pyTruthy]
    refine ⟨hcons, ?_, ?_, ?_, ?_, ?_⟩
    · rw [List.length_cons, hcons]
      omega
    all_goals
      rcases hl with rfl | rfl <;> rcases he with rfl | rfl <;>
        simp [truePositives, falseNegatives, trueNegatives, falsePositives,
          malwareResults, benignResults, test_file, pyTruthy, List.filter_cons]

/-- Witness for C9: concrete unloaded-model state, a one-byte upload, and
an expected label "malicious". -/
theorem degraded_results_http200_no_cell_witness :
    ((⟨none, none, none⟩ : BackendState).model = none ∨
      ∃ m msg, (⟨none, none, none⟩ : BackendState).model = some m ∧
        (fun _ : List Nat => (Except.ok [] : Except String FeatureVec)) [1] =
          .error msg) ∧
    (("malicious" : String) = "malicious" ∨ ("malicious" : String) = "benign") ∧
    (∃ l, (l = "Model not loaded" ∨ l = "Processing Error") ∧
      predictEndpoint
          (predictFileBackend ⟨none, none, none⟩
            (fun _ : List Nat => (Except.ok [] : Except String FeatureVec)))
          [1] =
        Response.ok l 0 ∧
      (test_file "sample.exe" "malicious" (.response 200 l 0)).error = none ∧
      (test_file "sample.exe" "malicious" (.response 200 l 0)).correct = false ∧
      ∀ rs : List EvalRecord,
        errorsCount (test_file "sample.exe" "malicious" (.response 200 l 0) :: rs) =
          errorsCount rs ∧
        (test_file "sample.exe" "malicious" (.response 200 l 0) :: rs).length -
            errorsCount
              (test_file "sample.exe" "malicious" (.response 200 l 0) :: rs) =
          (rs.length - errorsCount rs) + 1 ∧
        truePositives
            (test_file "sample.exe" "malicious" (.response 200 l 0) :: rs) =
          truePositives rs ∧
        falseNegatives
            (test_file "sample.exe" "malicious" (.response 200 l 0) :: rs) =
          falseNegatives rs ∧
        trueNegatives
            (test_file "sample.exe" "malicious" (.response 200 l 0) :: rs) =
          trueNegatives rs ∧
        falsePositives
            (test_file "sample.exe" "malicious" (.response 200 l 0) :: rs) =
          falsePositives rs) :=
  ⟨Or.inl rfl, Or.inl rfl,
    degraded_results_http200_no_cell ⟨none, none, none⟩
      (fun _ : List Nat => (Except.ok [] : Except String FeatureVec)) 1 []
      "sample.exe" "malicious" (Or.inl rfl) (Or.inl rfl)⟩
